import Mathlib

/-!
Shallow embedding of `app.py`, a Flask webhook that receives KoboToolbox
submissions, uploads attachments to Google Drive, and creates a Notion page.

External effects (HTTP requests to Notion / Kobo / Drive, the local file
system) are modelled as explicit oracle structures passed to the embedded
functions; the functions themselves are direct translations of the Python
source.  Notion-side creations are tracked as an explicit effect list, and
the uploader's local-file operations as an explicit `FsOp` list.
-/

set_option maxRecDepth 4096

/-- Configuration loaded from environment variables at startup
(`app.py` lines 25-46).  `kobo_media_token_env` is the raw optional
`KOBO_MEDIA_TOKEN` variable; `KOBO_USERNAME` / `KOBO_PASSWORD` are optional. -/
structure AppConfig where
  kobo_token : String
  kobo_username : Option String
  kobo_password : Option String
  kobo_media_token_env : Option String
  notion_db_apontamentos : String
  notion_db_usuarios : String
  notion_db_obras : String
deriving DecidableEq, Repr

/-- `KOBO_MEDIA_TOKEN = os.getenv("KOBO_MEDIA_TOKEN", KOBO_TOKEN)` (line 46). -/
def kobo_media_token (cfg : AppConfig) : String :=
  cfg.kobo_media_token_env.getD cfg.kobo_token

/-- One entry of the payload's `_attachments` list: the code reads only
`attachment.get("filename")`; a `download_url` field may be present in the
payload but is never read by the code. -/
structure Attachment where
  filename : Option String
  download_url : Option String
deriving DecidableEq, Repr

/-- The parsed JSON body, with the fields the handler reads via `dados.get`:
string fields default to `""`, `token` defaults to `None`, `_attachments`
defaults to `[]`. -/
structure Payload where
  token : Option String
  obra : String
  submitted_by : String
  localizacao : String
  apontamento : String
  status : String
  submission_time : String
  uuid : String
  attachments : List Attachment
deriving DecidableEq, Repr

/-- The raw request body as seen by `request.get_json()` (line 163):
`malformed` = parsing raises (malformed JSON with a JSON content type),
`falsyJson` = parse succeeds but yields a falsy value (`null`, `{}`, ...),
`payload` = parse succeeds with a truthy object. -/
inductive ReqBody where
  | malformed (msg : String)
  | falsyJson
  | payload (dados : Payload)
deriving DecidableEq, Repr

/-- Models Flask `request.get_json()` with default arguments: a body that
fails to parse raises an exception (modelled as `.error`); otherwise the
parsed value is returned (`none` = falsy value, so `if not dados` fires). -/
def get_json : ReqBody → Except String (Option Payload)
  | .malformed msg => .error msg
  | .falsyJson => .ok none
  | .payload dados => .ok (some dados)

/-- The filters `app.py` sends to the Notion query endpoint:
`{"property": "Título", "title": {"equals": s}}` and
`{"property": "Obras", "relation": {"contains": s}}`. -/
inductive QueryFilter where
  | titleEquals (s : String)
  | relationContains (s : String)
deriving DecidableEq, Repr

/-- The assembled `propriedades` dict (lines 194-207).  `resp`, `fotos` and
`docs` are `none` when the corresponding key is not added. -/
structure Propriedades where
  titulo : String
  obra_rel : String
  localizacao : String
  apontamento : String
  status : String
  data_criacao : String
  uuid : String
  resp : Option String
  fotos : Option String
  docs : Option String
deriving DecidableEq, Repr

/-- Notion-side creation effects performed by the handler. -/
inductive Effect where
  | createUser (login : String)
  | createRecord (props : Propriedades)
deriving DecidableEq, Repr

/-- Local file-system operations performed by `upload_para_drive`. -/
inductive FsOp where
  | write (path : String) (content : String)
  | remove (path : String)
deriving DecidableEq, Repr

/-- Oracle for the Notion backend.  `query db f` models
`requests.post(<query url for db>, json={"filter": f})`: `.error` is a raised
transport exception, `.ok (status, results)` an HTTP response whose parsed
`results` list (page ids) is meaningful when `status = 200`.
`create_user` / `create_page` model `notion.pages.create` on the
users / records database (`.error` = raised SDK exception). -/
structure NotionWorld where
  query : String → QueryFilter → Except String (Nat × List String)
  create_user : String → Except String String
  create_page : Propriedades → Except String String

/-- Oracle for the Kobo media endpoint and Google Drive.
`download url authHeader` models `requests.get(url, headers={'Authorization': authHeader}, ...)`
(`.error` = raised transport exception, `.ok (status, content)` = response).
`drive_create path content` models `MediaFileUpload(path)` plus
`drive_service.files().create(...).execute()` on the local file at `path`
holding `content`, returning the created file id or a raised exception. -/
structure DriveWorld where
  download : String → String → Except String (Nat × String)
  drive_create : String → String → Except String String

/-- `query_notion_database` (lines 58-71): a non-200 response is logged and
collapsed to `{"results": []}`; a raised transport exception propagates. -/
def query_notion_database (w : NotionWorld) (database_id : String)
    (filter_dict : QueryFilter) : Except String (List String) :=
  match w.query database_id filter_dict with
  | .error e => .error e
  | .ok (status, results) => if status = 200 then .ok results else .ok []

/-- `obter_obra_id` (lines 133-145): exact-title lookup, first result wins,
`None` when there is no result or on any exception.  No creation happens. -/
def obter_obra_id (cfg : AppConfig) (w : NotionWorld) (obra_nome : String) :
    Option String :=
  match query_notion_database w cfg.notion_db_obras (.titleEquals obra_nome) with
  | .error _ => none
  | .ok [] => none
  | .ok (r :: _) => some r

/-- `obter_usuario_por_login` (lines 117-131): exact-title lookup; on no
result, creates the user (tracked as an effect).  Any exception yields
`None`; a failed create performed no creation. -/
def obter_usuario_por_login (cfg : AppConfig) (w : NotionWorld) (login : String) :
    Option String × List Effect :=
  match query_notion_database w cfg.notion_db_usuarios (.titleEquals login) with
  | .error _ => (none, [])
  | .ok (r :: _) => (some r, [])
  | .ok [] =>
    match w.create_user login with
    | .error _ => (none, [])
    | .ok id => (some id, [.createUser login])

/-- Python's `f"{n:03d}"` for a natural number: decimal digits left-padded
with zeros to a minimum width of 3. -/
def format3 (n : Nat) : String :=
  if n < 10 then "00" ++ toString n
  else if n < 100 then "0" ++ toString n
  else toString n

/-- `gerar_titulo` (lines 147-154): counts the records related to the work
site, formats `f"{obra_nome} - {total:03d}"` with `total = count + 1`; any
exception falls back to `f"{obra_nome} - 001"`. -/
def gerar_titulo (cfg : AppConfig) (w : NotionWorld) (obra_nome obra_id : String) :
    String :=
  match query_notion_database w cfg.notion_db_apontamentos
      (.relationContains obra_id) with
  | .error _ => obra_nome ++ " - 001"
  | .ok results => obra_nome ++ " - " ++ format3 (results.length + 1)

/-- Helper for `removeFirstL`: if `pat` is a prefix of `s`, the remainder of
`s` after `pat`, else `none`. -/
def stripAt : List Char → List Char → Option (List Char)
  | [], s => some s
  | _ :: _, [] => none
  | p :: ps, c :: cs => if c = p then stripAt ps cs else none

/-- Python `s.replace(pat, '', 1)` on character lists (for non-empty `pat`):
remove the leftmost occurrence of `pat`, if any. -/
def removeFirstL (pat : List Char) : List Char → List Char
  | [] => []
  | c :: cs =>
    match stripAt pat (c :: cs) with
    | some rest => rest
    | none => c :: removeFirstL pat cs

/-- Python `s.replace(pat, '', 1)`: remove the leftmost occurrence of `pat`. -/
def removeFirst (pat s : String) : String :=
  ⟨removeFirstL pat.data s.data⟩

/-- Whether `pat` occurs as a contiguous sublist of `s`. -/
def hasOccurL (pat : List Char) : List Char → Bool
  | [] => (stripAt pat []).isSome
  | c :: cs => (stripAt pat (c :: cs)).isSome || hasOccurL pat cs

/-- `os.path.basename` on a POSIX path: the part after the last `'/'`. -/
def basenameL (s : List Char) : List Char :=
  s.foldl (fun acc c => if c = '/' then [] else acc ++ [c]) []

/-- `os.path.basename(filename)` (line 84). -/
def basename (s : String) : String :=
  ⟨basenameL s.data⟩

/-- `caminho = os.path.join(diretorio, os.path.basename(filename))` with
`diretorio = "fotos_recebidas"` (lines 81-84).  Since `basename` never
contains `'/'` (so in particular never starts with one), the join is plain
concatenation with a separator. -/
def caminho (filename : String) : String :=
  "fotos_recebidas/" ++ basename filename

/-- `download_url = f"{base_url}?media_file={filename}"` (lines 77-78): the
target URL is always constructed from the fixed base and the filename. -/
def download_target (filename : String) : String :=
  "https://kf.kobotoolbox.org/attachment/original?media_file=" ++ filename

/-- `headers = {'Authorization': f'Bearer {KOBO_TOKEN}'}` (line 86). -/
def upload_headers (cfg : AppConfig) : String :=
  "Bearer " ++ cfg.kobo_token

/-- Authentication strategies an attachment fetch could use. -/
inductive AuthStrategy where
  | digest (u p : String)
  | bearer (t : String)
deriving DecidableEq, Repr

/-- The authentication actually used by the fetch in `upload_para_drive`
(lines 86-88): `requests.get` is called with a bearer `KOBO_TOKEN` header and
no `auth=` argument, for every configuration. -/
def upload_auth (cfg : AppConfig) : AuthStrategy :=
  .bearer cfg.kobo_token

/-- Modelled from the spec (§4.4), which describes a strategy selection that
is absent from `src/app.py`: "(1) digest auth using a configured
username/password pair if both are set; (2) a bearer media token if
configured and distinct from the primary token; (3) the primary bearer token
as last resort". -/
def spec_upload_auth (cfg : AppConfig) : AuthStrategy :=
  match cfg.kobo_username, cfg.kobo_password with
  | some u, some p => .digest u p
  | _, _ =>
    if cfg.kobo_media_token_env.isSome ∧ kobo_media_token cfg ≠ cfg.kobo_token then
      .bearer (kobo_media_token cfg)
    else
      .bearer cfg.kobo_token

/-- Modelled from the spec (§4.4), which describes an `explicitUrl` path that
is absent from `src/app.py`: "use `explicitUrl` if given, else construct
`<mediaEndpointBase>?media_file=<filename>`". -/
def spec_download_target (explicitUrl : Option String) (filename : String) :
    String :=
  match explicitUrl with
  | some u => u
  | none => download_target filename

/-- `upload_para_drive` (lines 73-114).  Control flow of the source:
download exception or non-200 status → `None` with no file written; download
ok → scratch file written at `caminho`; Drive upload exception → `None`
(scratch file retained, since the cleanup at lines 108-109 is only reached on
success); Drive upload ok → cleanup, return the view link. -/
def upload_para_drive (cfg : AppConfig) (dw : DriveWorld) (filename : String) :
    Option String × List FsOp :=
  match dw.download (download_target filename) (upload_headers cfg) with
  | .error _ => (none, [])
  | .ok (status, content) =>
    if status ≠ 200 then (none, [])
    else
      match dw.drive_create (caminho filename) content with
      | .error _ => (none, [.write (caminho filename) content])
      | .ok file_id =>
        (some ("https://drive.google.com/file/d/" ++ file_id ++ "/view"),
         [.write (caminho filename) content, .remove (caminho filename)])

/-- `token = auth_header.replace('Bearer ', '', 1) if auth_header else
dados.get('token')` (lines 167-168).  Python truthiness: an absent *or
empty* `Authorization` header falls back to the body's `token` field. -/
def extract_token (auth_header : Option String) (dados : Payload) :
    Option String :=
  match auth_header with
  | some h => if h = "" then dados.token else some (removeFirst "Bearer " h)
  | none => dados.token

/-- `if token and token != KOBO_TOKEN` (line 169).  Python truthiness: an
empty-string token does not trigger the check. -/
def invalid_token (cfg : AppConfig) (token : Option String) : Bool :=
  match token with
  | none => false
  | some t => if t = "" then false else if t = cfg.kobo_token then false else true

/-- The link-collection loop (lines 183-192): for each attachment in payload
order, read `filename`, skip falsy ones, call `upload_para_drive`, and append
`f"Foto: {link}"` on success. -/
def links_of (cfg : AppConfig) (dw : DriveWorld) (attachments : List Attachment) :
    List String :=
  attachments.foldl
    (fun acc attachment =>
      match attachment.filename with
      | none => acc
      | some filename =>
        if filename = "" then acc
        else
          match (upload_para_drive cfg dw filename).1 with
          | none => acc
          | some link => acc ++ ["Foto: " ++ link]) []

/-- The per-attachment outcome of the loop in lines 183-192: the formatted
link line an attachment contributes, or `none` when it is skipped. -/
def attachment_link (cfg : AppConfig) (dw : DriveWorld) (attachment : Attachment) :
    Option String :=
  match attachment.filename with
  | none => none
  | some filename =>
    if filename = "" then none
    else ((upload_para_drive cfg dw filename).1).map (fun link => "Foto: " ++ link)

/-- The download URL the handler's loop targets for an attachment: the code
reads only `attachment.get("filename")` (line 187) and `upload_para_drive`
always constructs the URL from it; a `download_url` field of the payload is
never read. -/
def code_attachment_target (attachment : Attachment) : Option String :=
  match attachment.filename with
  | none => none
  | some filename => if filename = "" then none else some (download_target filename)

/-- The `propriedades` dict assembly (lines 194-207): `Resp` only when the
submitter resolved, `Fotos`/`Docs` only when the link list is non-empty,
joined with newlines. -/
def montar_propriedades (titulo obra_id : String) (dados : Payload)
    (usuario_id : Option String) (links_fotos : List String) : Propriedades :=
  { titulo := titulo
    obra_rel := obra_id
    localizacao := dados.localizacao
    apontamento := dados.apontamento
    status := dados.status
    data_criacao := dados.submission_time
    uuid := dados.uuid
    resp := usuario_id
    fotos := if links_fotos = [] then none
             else some (String.intercalate "\n" links_fotos)
    docs := if links_fotos = [] then none
            else some (String.intercalate "\n" links_fotos) }

/-- Responses of the handler (`jsonify` payload and status code). -/
inductive Resp where
  | ok (page_id : String)
  | errJsonAusente
  | errTokenInvalido
  | errObraObrigatoria
  | errObraNaoEncontrada
  | err500 (msg : String)
deriving DecidableEq, Repr

/-- The HTTP status code of each response (lines 165, 170, 174, 178, 214, 218). -/
def Resp.status : Resp → Nat
  | .ok _ => 200
  | .errJsonAusente => 400
  | .errTokenInvalido => 401
  | .errObraObrigatoria => 400
  | .errObraNaoEncontrada => 400
  | .err500 _ => 500

/-- `receber_dados` (lines 156-218), the `POST /webhook_kobo` handler.
A raised exception anywhere (JSON parsing, `notion.pages.create`) is caught
by the catch-all at lines 216-218 and reported as 500 with the exception's
message.  The second component collects the Notion creations performed. -/
def receber_dados (cfg : AppConfig) (auth_header : Option String)
    (body : ReqBody) (w : NotionWorld) (dw : DriveWorld) : Resp × List Effect :=
  match get_json body with
  | .error e => (.err500 e, [])
  | .ok none => (.errJsonAusente, [])
  | .ok (some dados) =>
    if invalid_token cfg (extract_token auth_header dados) then
      (.errTokenInvalido, [])
    else if dados.obra = "" then (.errObraObrigatoria, [])
    else
      match obter_obra_id cfg w dados.obra with
      | none => (.errObraNaoEncontrada, [])
      | some obra_id =>
        let titulo := gerar_titulo cfg w dados.obra obra_id
        let usuario := obter_usuario_por_login cfg w dados.submitted_by
        let links_fotos := links_of cfg dw dados.attachments
        let propriedades :=
          montar_propriedades titulo obra_id dados usuario.1 links_fotos
        match w.create_page propriedades with
        | .error e => (.err500 e, usuario.2)
        | .ok page_id => (.ok page_id, usuario.2 ++ [.createRecord propriedades])

/-! ## Shared concrete fixtures -/

/-- A configuration with shared secret `"tok"` and no optional credentials. -/
def cfg1 : AppConfig :=
  ⟨"tok", none, none, none, "db_apont", "db_user", "db_obra"⟩

/-- An empty payload: no token, all string fields empty, no attachments. -/
def pay0 : Payload := ⟨none, "", "", "", "", "", "", "", []⟩

/-- A Notion backend where every call raises a transport exception. -/
def wErr : NotionWorld :=
  ⟨fun _ _ => .error "net", fun _ => .error "net", fun _ => .error "net"⟩

/-- A Kobo/Drive backend where every call raises a transport exception. -/
def dwErr : DriveWorld := ⟨fun _ _ => .error "net", fun _ _ => .error "net"⟩

/-- A Kobo/Drive backend whose download echoes the Authorization header it
received as the body, and whose Drive upload returns the uploaded content as
the file id: it makes the credentials used by a fetch observable. -/
def dwEcho : DriveWorld :=
  ⟨fun _ a => .ok (200, a), fun _ content => .ok content⟩

/-! ## C3: title sequencer -/

/-- C3: for a work site whose count query returns `N` existing related
records, `gerar_titulo` returns `"<name> - "` followed by `N+1` zero-padded
to 3 digits; when the count query fails, it returns `"<name> - 001"` instead
of propagating the failure. -/
theorem c3_titulo_sequencer (cfg : AppConfig) (w w' : NotionWorld)
    (nome oid : String) (results : List String) (e : String)
    (hok : query_notion_database w cfg.notion_db_apontamentos
      (.relationContains oid) = .ok results)
    (hfail : query_notion_database w' cfg.notion_db_apontamentos
      (.relationContains oid) = .error e) :
    gerar_titulo cfg w nome oid = nome ++ " - " ++ format3 (results.length + 1) ∧
    gerar_titulo cfg w' nome oid = nome ++ " - 001" := by
  unfold gerar_titulo
  rw [hok, hfail]
  exact ⟨rfl, rfl⟩

/-- A Notion backend answering every query with 200 and two results. -/
def w3ok : NotionWorld :=
  ⟨fun _ _ => .ok (200, ["r1", "r2"]), fun _ => .error "net", fun _ => .error "net"⟩

/-- Witness for C3 at a concrete backend with 2 existing records (giving
`"North Tower - 003"`) and a failing backend (giving `"North Tower - 001"`). -/
theorem c3_titulo_sequencer_witness :
    (query_notion_database w3ok cfg1.notion_db_apontamentos
        (.relationContains "obra-1") = .ok ["r1", "r2"] ∧
      query_notion_database wErr cfg1.notion_db_apontamentos
        (.relationContains "obra-1") = .error "net") ∧
    (gerar_titulo cfg1 w3ok "North Tower" "obra-1"
        = "North Tower" ++ " - " ++ format3 (["r1", "r2"].length + 1) ∧
      gerar_titulo cfg1 wErr "North Tower" "obra-1" = "North Tower" ++ " - 001") :=
  ⟨⟨rfl, rfl⟩,
   c3_titulo_sequencer cfg1 w3ok wErr "North Tower" "obra-1" ["r1", "r2"] "net"
     rfl rfl⟩

/-! ## C5: attachment-fetch authentication -/

/-- A configuration with a username/password pair configured. -/
def cfg5 : AppConfig :=
  ⟨"tok", some "user", some "pass", none, "db_apont", "db_user", "db_obra"⟩

/-- C5 counterexample: with a username/password pair configured, the spec's
priority order selects digest auth, but the code's fetch still sends the
primary bearer token (observable through the echoing backend: the uploaded
content, hence the link's file id, is the Authorization header the download
received). -/
theorem c5_counterexample :
    spec_upload_auth cfg5 = .digest "user" "pass" ∧
    upload_auth cfg5 = .bearer "tok" ∧
    upload_auth cfg5 ≠ spec_upload_auth cfg5 ∧
    upload_para_drive cfg5 dwEcho "f.jpg"
      = (some "https://drive.google.com/file/d/Bearer tok/view",
         [.write "fotos_recebidas/f.jpg" "Bearer tok",
          .remove "fotos_recebidas/f.jpg"]) := by
  refine ⟨rfl, rfl, by decide, by decide⟩

/-- C5 amended: every attachment fetch sends the primary bearer token; the
configured username/password pair and media token are never consulted, so
two configurations agreeing on the primary token fetch identically. -/
theorem c5_amended_primary_bearer_always (dw : DriveWorld) (f : String)
    (c c' : AppConfig) (h : c.kobo_token = c'.kobo_token) :
    upload_auth c = .bearer c.kobo_token ∧
    upload_headers c = "Bearer " ++ c.kobo_token ∧
    upload_para_drive c dw f = upload_para_drive c' dw f := by
  refine ⟨rfl, rfl, ?_⟩
  unfold upload_para_drive upload_headers
  rw [h]

/-- Witness for C5 (amended) at two configurations sharing the primary token
but differing in username, password and media token. -/
theorem c5_amended_primary_bearer_always_witness :
    cfg5.kobo_token = cfg1.kobo_token ∧
    (upload_auth cfg5 = .bearer cfg5.kobo_token ∧
     upload_headers cfg5 = "Bearer " ++ cfg5.kobo_token ∧
     upload_para_drive cfg5 dwEcho "x.jpg" = upload_para_drive cfg1 dwEcho "x.jpg") :=
  ⟨rfl, c5_amended_primary_bearer_always dwEcho "x.jpg" cfg5 cfg1 rfl⟩

/-! ## C6: download-target resolution -/

/-- An attachment carrying both a filename and an explicit download URL. -/
def att6 : Attachment := ⟨some "f.jpg", some "https://example.com/f.jpg"⟩

/-- C6 counterexample: for an attachment with an explicit download URL, the
spec's resolution uses that URL, but the code constructs the media-endpoint
URL from the filename and never reads the explicit one. -/
theorem c6_counterexample :
    spec_download_target att6.download_url "f.jpg" = "https://example.com/f.jpg" ∧
    code_attachment_target att6
      = some "https://kf.kobotoolbox.org/attachment/original?media_file=f.jpg" ∧
    code_attachment_target att6 ≠ some (spec_download_target att6.download_url "f.jpg") := by
  refine ⟨rfl, rfl, by decide⟩

/-- C6 amended: the fetch target is always the constructed
`<mediaEndpointBase>?media_file=<filename>` URL, independent of any explicit
URL in the attachment, and `upload_para_drive` consults its backend's
download function only at that URL. -/
theorem c6_amended_constructed_target_only (cfg : AppConfig) (f : String)
    (u u' : Option String) (dw dw' : DriveWorld)
    (hd : ∀ a, dw.download (download_target f) a = dw'.download (download_target f) a)
    (hc : dw.drive_create = dw'.drive_create) :
    code_attachment_target ⟨some f, u⟩ = code_attachment_target ⟨some f, u'⟩ ∧
    (f ≠ "" → code_attachment_target ⟨some f, u⟩ = some (download_target f)) ∧
    upload_para_drive cfg dw f = upload_para_drive cfg dw' f := by
  refine ⟨rfl, fun hf => by simp [code_attachment_target, hf], ?_⟩
  unfold upload_para_drive
  rw [hd (upload_headers cfg), hc]

/-- Witness for C6 (amended) at a concrete filename and equal backends. -/
theorem c6_amended_constructed_target_only_witness :
    code_attachment_target ⟨some "f.jpg", some "https://example.com/f.jpg"⟩
      = code_attachment_target ⟨some "f.jpg", none⟩ ∧
    ("f.jpg" ≠ "" →
      code_attachment_target ⟨some "f.jpg", some "https://example.com/f.jpg"⟩
        = some (download_target "f.jpg")) ∧
    upload_para_drive cfg1 dwEcho "f.jpg" = upload_para_drive cfg1 dwEcho "f.jpg" :=
  c6_amended_constructed_target_only cfg1 "f.jpg"
    (some "https://example.com/f.jpg") none dwEcho dwEcho (fun _ => rfl) rfl

/-! ## C7: scratch-file cleanup -/

/-- A Kobo/Drive backend whose download succeeds and whose Drive upload
raises an API exception. -/
def dw7 : DriveWorld :=
  ⟨fun _ _ => .ok (200, "bytes"), fun _ _ => .error "HttpError 403"⟩

/-- C7 counterexample: when the Drive upload raises, `upload_para_drive`
returns through the exception handler without reaching the cleanup at lines
108-109, so the scratch file written during download is retained. -/
theorem c7_counterexample :
    upload_para_drive cfg1 dw7 "f.jpg"
      = (none, [.write "fotos_recebidas/f.jpg" "bytes"]) ∧
    FsOp.remove "fotos_recebidas/f.jpg" ∉ (upload_para_drive cfg1 dw7 "f.jpg").2 := by
  refine ⟨by decide, by decide⟩

/-- C7 amended: the scratch file is deleted only after a successful upload;
when the upload raises after a successful download, the scratch file is
written and retained (no remove is performed). -/
theorem c7_amended_cleanup_only_on_success (cfg : AppConfig) (w w' : DriveWorld)
    (f content content' e fid : String)
    (h1 : w.download (download_target f) (upload_headers cfg) = .ok (200, content))
    (h2 : w.drive_create (caminho f) content = .error e)
    (h3 : w'.download (download_target f) (upload_headers cfg) = .ok (200, content'))
    (h4 : w'.drive_create (caminho f) content' = .ok fid) :
    upload_para_drive cfg w f = (none, [.write (caminho f) content]) ∧
    upload_para_drive cfg w' f
      = (some ("https://drive.google.com/file/d/" ++ fid ++ "/view"),
         [.write (caminho f) content', .remove (caminho f)]) := by
  unfold upload_para_drive
  rw [h1, h3]
  simp only [ne_eq, not_true_eq_false, reduceIte]
  rw [h2, h4]
  exact ⟨rfl, rfl⟩

/-- A Kobo/Drive backend whose download and Drive upload both succeed. -/
def dw7ok : DriveWorld :=
  ⟨fun _ _ => .ok (200, "bytes"), fun _ _ => .ok "id42"⟩

/-- Witness for C7 (amended) at a failing-upload backend and a succeeding
backend. -/
theorem c7_amended_cleanup_only_on_success_witness :
    upload_para_drive cfg1 dw7 "f.jpg"
      = (none, [.write (caminho "f.jpg") "bytes"]) ∧
    upload_para_drive cfg1 dw7ok "f.jpg"
      = (some ("https://drive.google.com/file/d/" ++ "id42" ++ "/view"),
         [.write (caminho "f.jpg") "bytes", .remove (caminho "f.jpg")]) :=
  c7_amended_cleanup_only_on_success cfg1 dw7 dw7ok "f.jpg" "bytes" "bytes"
    "HttpError 403" "id42" rfl rfl rfl rfl

/-! ## C8: malformed / absent JSON -/

/-- C8 counterexample: a malformed body makes `request.get_json()` raise;
the exception is caught by the catch-all at lines 216-218 and reported as
500, not as the claimed 400. -/
theorem c8_counterexample :
    receber_dados cfg1 none (.malformed "Failed to decode JSON object") wErr dwErr
      = (.err500 "Failed to decode JSON object", []) ∧
    (receber_dados cfg1 none (.malformed "Failed to decode JSON object")
        wErr dwErr).1.status = 500 ∧
    (receber_dados cfg1 none (.malformed "Failed to decode JSON object")
        wErr dwErr).1.status ≠ 400 := by
  refine ⟨rfl, rfl, by decide⟩

/-- C8 amended: a body whose parse succeeds with a falsy value receives 400
with the missing-JSON-payload error; a body whose parse raises (malformed
JSON) is reported as 500 by the catch-all handler, not 400. -/
theorem c8_amended_json_errors (cfg : AppConfig) (h : Option String)
    (w : NotionWorld) (dw : DriveWorld) (e : String) :
    receber_dados cfg h .falsyJson w dw = (.errJsonAusente, []) ∧
    Resp.status .errJsonAusente = 400 ∧
    receber_dados cfg h (.malformed e) w dw = (.err500 e, []) ∧
    Resp.status (.err500 e) = 500 :=
  ⟨rfl, rfl, rfl, rfl⟩

/-! ## C10: scratch-path confinement -/

/-- Split a character list at `'/'` separators (the components of a POSIX
path, empty components included). -/
def splitSlash : List Char → List (List Char)
  | [] => [[]]
  | c :: cs =>
    match splitSlash cs with
    | [] => [[]]
    | h :: t => if c = '/' then [] :: h :: t else (c :: h) :: t

/-- POSIX resolution of a relative path to the list of directory-entry names
it denotes, relative to the working directory: empty components and `"."`
are skipped, `".."` pops the last component. -/
def pathComponents (p : String) : List String :=
  (splitSlash p.data).foldl
    (fun acc comp =>
      if comp = [] ∨ comp = ['.'] then acc
      else if comp = ['.', '.'] then acc.dropLast
      else acc ++ [⟨comp⟩]) []

/-- Models POSIX `open(path, 'wb')` given the set `dirs` of existing
directories (as resolved component lists): opening a path that resolves to
an existing directory raises `IsADirectoryError` (`none`); otherwise a file
is created at the resolved location. -/
def open_wb (dirs : List (List String)) (p : String) : Option (List String) :=
  if pathComponents p ∈ dirs then none else some (pathComponents p)

theorem splitSlash_ne_nil (l : List Char) : splitSlash l ≠ [] := by
  cases l with
  | nil => simp [splitSlash]
  | cons c cs =>
    rcases hsc : splitSlash cs with _ | ⟨h, t⟩
    · simp [splitSlash, hsc]
    · simp only [splitSlash, hsc]
      split <;> simp

theorem splitSlash_no_slash {l : List Char} (h : '/' ∉ l) : splitSlash l = [l] := by
  induction l with
  | nil => rfl
  | cons c cs ih =>
    have hc : c ≠ '/' := fun hh => h (hh ▸ List.mem_cons_self c cs)
    have hcs : '/' ∉ cs := fun hh => h (List.mem_cons_of_mem _ hh)
    simp [splitSlash, ih hcs, hc]

theorem splitSlash_append {l₁ : List Char} (l₂ : List Char) (h : '/' ∉ l₁) :
    splitSlash (l₁ ++ '/' :: l₂) = l₁ :: splitSlash l₂ := by
  induction l₁ with
  | nil =>
    obtain ⟨hh, t, heq⟩ := List.exists_cons_of_ne_nil (splitSlash_ne_nil l₂)
    simp [splitSlash, heq]
  | cons c cs ih =>
    have hc : c ≠ '/' := fun hh => h (hh ▸ List.mem_cons_self c _)
    have hcs : '/' ∉ cs := fun hh => h (List.mem_cons_of_mem _ hh)
    simp [splitSlash, ih hcs, hc]

theorem foldl_basename_no_slash (s : List Char) :
    ∀ acc : List Char, '/' ∉ acc →
      '/' ∉ s.foldl (fun acc c => if c = '/' then [] else acc ++ [c]) acc := by
  induction s with
  | nil => intro acc h; simpa using h
  | cons c cs ih =>
    intro acc h
    simp only [List.foldl_cons]
    by_cases hc : c = '/'
    · subst hc
      simpa using ih [] (by simp)
    · rw [if_neg hc]
      exact ih (acc ++ [c]) (by
        intro hm
        rcases List.mem_append.1 hm with hm | hm
        · exact h hm
        · simp at hm; exact hc hm.symm)

theorem basename_no_slash (s : String) : '/' ∉ (basename s).data :=
  foldl_basename_no_slash s.data [] (by simp)

theorem pathComponents_caminho (f : String) :
    pathComponents (caminho f) =
      if (basename f).data = [] ∨ (basename f).data = ['.'] then ["fotos_recebidas"]
      else if (basename f).data = ['.', '.'] then []
      else ["fotos_recebidas", basename f] := by
  have hns : '/' ∉ "fotos_recebidas".data := by decide
  have h1 : (caminho f).data = "fotos_recebidas".data ++ '/' :: (basename f).data := rfl
  unfold pathComponents
  rw [h1, splitSlash_append (basename f).data hns,
    splitSlash_no_slash (basename_no_slash f)]
  show (if (basename f).data = [] ∨ (basename f).data = ['.'] then ["fotos_recebidas"]
        else if (basename f).data = ['.', '.'] then
          (["fotos_recebidas"] : List String).dropLast
        else ["fotos_recebidas"] ++ [⟨(basename f).data⟩])
    = (if (basename f).data = [] ∨ (basename f).data = ['.'] then ["fotos_recebidas"]
        else if (basename f).data = ['.', '.'] then []
        else ["fotos_recebidas", basename f])
  split_ifs <;> rfl

/-- C10: the scratch file is written at the fixed scratch directory joined
with the basename of the attachment filename; the basename contains no path
separator, and any write that succeeds lands at a direct child of the
scratch directory — a filename with separators or parent components can
never make the download write outside `fotos_recebidas`. -/
theorem c10_scratch_confinement (filename : String) (dirs : List (List String))
    (r : List String)
    (hroot : ([] : List String) ∈ dirs)
    (hscratch : ["fotos_recebidas"] ∈ dirs)
    (hw : open_wb dirs (caminho filename) = some r) :
    caminho filename = "fotos_recebidas/" ++ basename filename ∧
    (∀ c ∈ (basename filename).data, c ≠ '/') ∧
    r = ["fotos_recebidas", basename filename] := by
  refine ⟨rfl, fun c hc hc' => basename_no_slash filename (hc' ▸ hc), ?_⟩
  unfold open_wb at hw
  rw [pathComponents_caminho] at hw
  by_cases hb1 : (basename filename).data = [] ∨ (basename filename).data = ['.']
  · rw [if_pos hb1, if_pos hscratch] at hw; cases hw
  · by_cases hb2 : (basename filename).data = ['.', '.']
    · rw [if_neg hb1, if_pos hb2, if_pos hroot] at hw; cases hw
    · rw [if_neg hb1, if_neg hb2] at hw
      by_cases hm : ["fotos_recebidas", basename filename] ∈ dirs
      · rw [if_pos hm] at hw; cases hw
      · rw [if_neg hm] at hw
        injection hw with hw
        exact hw.symm

/-- Witness for C10 at the traversal-attempting filename
`"a/../../etc/passwd"`, whose basename is `"passwd"`. -/
theorem c10_scratch_confinement_witness :
    (([] : List String) ∈ [([] : List String), ["fotos_recebidas"]] ∧
      ["fotos_recebidas"] ∈ [([] : List String), ["fotos_recebidas"]] ∧
      open_wb [([] : List String), ["fotos_recebidas"]] (caminho "a/../../etc/passwd")
        = some ["fotos_recebidas", "passwd"]) ∧
    (caminho "a/../../etc/passwd" = "fotos_recebidas/" ++ basename "a/../../etc/passwd" ∧
      (∀ c ∈ (basename "a/../../etc/passwd").data, c ≠ '/') ∧
      ["fotos_recebidas", "passwd"] = ["fotos_recebidas", basename "a/../../etc/passwd"]) :=
  ⟨⟨by decide, by decide, by decide⟩,
   c10_scratch_confinement "a/../../etc/passwd"
     [([] : List String), ["fotos_recebidas"]] ["fotos_recebidas", "passwd"]
     (by decide) (by decide) (by decide)⟩

/-! ## C1 / C9: token extraction and the auth gate -/

theorem removeFirstL_of_no_occur {pat : List Char} :
    ∀ {l : List Char}, hasOccurL pat l = false → removeFirstL pat l = l := by
  intro l
  induction l with
  | nil => intro _; rfl
  | cons c cs ih =>
    intro h
    simp only [hasOccurL, Bool.or_eq_false_iff] at h
    obtain ⟨h1, h2⟩ := h
    have hnone : stripAt pat (c :: cs) = none := by
      cases hs : stripAt pat (c :: cs)
      · rfl
      · rw [hs] at h1; cases h1
    simp only [removeFirstL, hnone]
    rw [ih h2]

theorem removeFirst_of_no_occur (pat s : String)
    (h : hasOccurL pat.data s.data = false) : removeFirst pat s = s := by
  unfold removeFirst
  rw [removeFirstL_of_no_occur h]

/-- If the extracted token fails the `if token and token != KOBO_TOKEN`
check, the handler never answers 401. -/
theorem no_token_error_of_valid (cfg : AppConfig) (hd : Option String)
    (dados : Payload) (w : NotionWorld) (dw : DriveWorld)
    (h : invalid_token cfg (extract_token hd dados) = false) :
    (receber_dados cfg hd (.payload dados) w dw).1 ≠ .errTokenInvalido := by
  simp only [receber_dados, get_json, h, Bool.false_eq_true, if_false]
  by_cases ho : dados.obra = ""
  · simp [ho]
  · rw [if_neg ho]
    split
    · simp
    · split <;> simp

/-- An `invalid_token` check on the shared secret itself never fires. -/
theorem invalid_token_secret (cfg : AppConfig) :
    invalid_token cfg (some cfg.kobo_token) = false := by
  show (if cfg.kobo_token = "" then false
        else if cfg.kobo_token = cfg.kobo_token then false else true) = false
  split_ifs with h1 h2
  · rfl
  · rfl
  · exact absurd rfl h2

/-- Modelled from the spec: "strip a literal `Bearer ` prefix" — removes one
*leading* `"Bearer "` prefix only (on the character-list representation). -/
def spec_strip_bearer (h : String) : String :=
  if "Bearer ".data.isPrefixOf h.data then ⟨h.data.drop 7⟩ else h

/-- A configuration whose shared secret is `"ab"`. -/
def cfgAB : AppConfig :=
  ⟨"ab", none, none, none, "db_apont", "db_user", "db_obra"⟩

/-- C1 counterexample: for the header `"aBearer b"` and secret `"ab"`, the
claim's extraction (leading-prefix strip) yields the token `"aBearer b"`,
present and different from the secret, so the claim demands 401; but the
code's `replace('Bearer ', '', 1)` removes the first occurrence *anywhere*,
yields exactly the secret, and the request proceeds past the auth gate (to
the 400 for the missing work-site name). -/
theorem c1_counterexample :
    spec_strip_bearer "aBearer b" = "aBearer b" ∧
    spec_strip_bearer "aBearer b" ≠ cfgAB.kobo_token ∧
    removeFirst "Bearer " "aBearer b" = "ab" ∧
    receber_dados cfgAB (some "aBearer b") (.payload pay0) wErr dwErr
      = (.errObraObrigatoria, []) ∧
    (receber_dados cfgAB (some "aBearer b") (.payload pay0) wErr dwErr).1.status
      ≠ 401 := by
  exact ⟨by decide, by decide, by decide, by decide, by decide⟩

/-- C1 amended: with the token extracted as the code does (first occurrence
of `"Bearer "` removed anywhere in a non-empty header, body `token` as
fallback) and "present" meaning non-empty (Python truthiness), the gate
holds: a present token different from the secret yields 401 with nothing
created; an absent or empty token proceeds past the gate; a token equal to
the secret proceeds past the gate. -/
theorem c1_amended_token_gate (cfg : AppConfig) (w : NotionWorld) (dw : DriveWorld)
    (h₁ : Option String) (d₁ : Payload) (t : String)
    (e₁ : extract_token h₁ d₁ = some t) (ht : t ≠ "") (hne : t ≠ cfg.kobo_token)
    (h₂ : Option String) (d₂ : Payload) (e₂ : extract_token h₂ d₂ = none)
    (h₃ : Option String) (d₃ : Payload)
    (e₃ : extract_token h₃ d₃ = some cfg.kobo_token)
    (h₄ : Option String) (d₄ : Payload) (e₄ : extract_token h₄ d₄ = some "") :
    (receber_dados cfg h₁ (.payload d₁) w dw = (.errTokenInvalido, []) ∧
      Resp.status .errTokenInvalido = 401) ∧
    (receber_dados cfg h₂ (.payload d₂) w dw).1 ≠ .errTokenInvalido ∧
    (receber_dados cfg h₃ (.payload d₃) w dw).1 ≠ .errTokenInvalido ∧
    (receber_dados cfg h₄ (.payload d₄) w dw).1 ≠ .errTokenInvalido := by
  have hT : invalid_token cfg (extract_token h₁ d₁) = true := by
    rw [e₁]; simp [invalid_token, ht, hne]
  refine ⟨⟨?_, rfl⟩, ?_, ?_, ?_⟩
  · simp only [receber_dados, get_json, hT, if_true]
  · exact no_token_error_of_valid cfg h₂ d₂ w dw (by rw [e₂]; rfl)
  · exact no_token_error_of_valid cfg h₃ d₃ w dw
      (by rw [e₃]; exact invalid_token_secret cfg)
  · exact no_token_error_of_valid cfg h₄ d₄ w dw (by rw [e₄]; rfl)

/-- Witness for C1 (amended) with secret `"ab"`: header `"Bearer xyz"`
(mismatched token → 401), no header and no body token (absent → proceeds),
header `"Bearer ab"` (matching → proceeds), header `"Bearer "` (empty token
→ proceeds). -/
theorem c1_amended_token_gate_witness :
    (extract_token (some "Bearer xyz") pay0 = some "xyz" ∧ "xyz" ≠ "" ∧
      "xyz" ≠ cfgAB.kobo_token ∧
      extract_token none pay0 = none ∧
      extract_token (some "Bearer ab") pay0 = some cfgAB.kobo_token ∧
      extract_token (some "Bearer ") pay0 = some "") ∧
    ((receber_dados cfgAB (some "Bearer xyz") (.payload pay0) wErr dwErr
        = (.errTokenInvalido, []) ∧
      Resp.status .errTokenInvalido = 401) ∧
    (receber_dados cfgAB none (.payload pay0) wErr dwErr).1 ≠ .errTokenInvalido ∧
    (receber_dados cfgAB (some "Bearer ab") (.payload pay0) wErr dwErr).1
      ≠ .errTokenInvalido ∧
    (receber_dados cfgAB (some "Bearer ") (.payload pay0) wErr dwErr).1
      ≠ .errTokenInvalido) :=
  ⟨⟨by decide, by decide, by decide, by decide, by decide, by decide⟩,
   c1_amended_token_gate cfgAB wErr dwErr
     (some "Bearer xyz") pay0 "xyz" (by decide) (by decide) (by decide)
     none pay0 (by decide)
     (some "Bearer ab") pay0 (by decide)
     (some "Bearer ") pay0 (by decide)⟩

/-- A configuration whose shared secret contains `"Bearer "` as an internal
substring. -/
def cfg9 : AppConfig :=
  ⟨"xBearer y", none, none, none, "db_apont", "db_user", "db_obra"⟩

/-- C9 counterexample: an `Authorization` header carrying the raw shared
secret (which has no leading `"Bearer "` prefix) is *not* accepted when the
secret contains `"Bearer "` internally: the code removes the first
occurrence anywhere, mangling the token, and answers 401. -/
theorem c9_counterexample :
    cfg9.kobo_token = "xBearer y" ∧
    removeFirst "Bearer " cfg9.kobo_token = "xy" ∧
    receber_dados cfg9 (some cfg9.kobo_token) (.payload pay0) wErr dwErr
      = (.errTokenInvalido, []) ∧
    Resp.status .errTokenInvalido = 401 := by
  exact ⟨rfl, by decide, by decide, rfl⟩

/-- C9 amended: (1) when a *non-empty* `Authorization` header is present,
the body's `token` field has no effect on the outcome; (2) a header whose
value is the raw shared secret is accepted, provided the secret is non-empty
and does not contain the substring `"Bearer "` (stripping removes the first
occurrence of `"Bearer "` anywhere in the header, not only a leading
prefix). -/
theorem c9_amended_header_dominance (cfg : AppConfig) (w : NotionWorld)
    (dw : DriveWorld) (hd : String) (dados : Payload) (t' : Option String)
    (hhd : hd ≠ "") (hsec : cfg.kobo_token ≠ "")
    (hocc : hasOccurL "Bearer ".data cfg.kobo_token.data = false) :
    receber_dados cfg (some hd) (.payload dados) w dw
      = receber_dados cfg (some hd) (.payload { dados with token := t' }) w dw ∧
    (receber_dados cfg (some cfg.kobo_token) (.payload dados) w dw).1
      ≠ .errTokenInvalido := by
  constructor
  · cases dados
    simp [receber_dados, get_json, extract_token, montar_propriedades, hhd]
  · refine no_token_error_of_valid cfg (some cfg.kobo_token) dados w dw ?_
    have he : extract_token (some cfg.kobo_token) dados = some cfg.kobo_token := by
      simp [extract_token, hsec, removeFirst_of_no_occur _ _ hocc]
    rw [he]
    exact invalid_token_secret cfg

/-- Witness for C9 (amended) with secret `"tok"`, header `"whatever"` and
two different body tokens. -/
theorem c9_amended_header_dominance_witness :
    ("whatever" ≠ "" ∧ cfg1.kobo_token ≠ "" ∧
      hasOccurL "Bearer ".data cfg1.kobo_token.data = false) ∧
    (receber_dados cfg1 (some "whatever") (.payload pay0) wErr dwErr
        = receber_dados cfg1 (some "whatever")
            (.payload { pay0 with token := some "other" }) wErr dwErr ∧
      (receber_dados cfg1 (some cfg1.kobo_token) (.payload pay0) wErr dwErr).1
        ≠ .errTokenInvalido) :=
  ⟨⟨by decide, by decide, by decide⟩,
   c9_amended_header_dominance cfg1 wErr dwErr "whatever" pay0 (some "other")
     (by decide) (by decide) (by decide)⟩

/-! ## C2: attachment processing -/

theorem links_of_append (cfg : AppConfig) (dw : DriveWorld) :
    ∀ (atts : List Attachment) (acc : List String),
      atts.foldl
        (fun acc attachment =>
          match attachment.filename with
          | none => acc
          | some filename =>
            if filename = "" then acc
            else
              match (upload_para_drive cfg dw filename).1 with
              | none => acc
              | some link => acc ++ ["Foto: " ++ link]) acc
        = acc ++ atts.filterMap (attachment_link cfg dw)
  | [], acc => by simp
  | att :: atts, acc => by
    simp only [List.foldl_cons, List.filterMap_cons]
    rcases hft : att.filename with _ | f
    · simp only [hft, attachment_link]
      rw [links_of_append cfg dw atts acc]
    · by_cases hf : f = ""
      · simp only [hft, hf, attachment_link, reduceIte]
        rw [links_of_append cfg dw atts acc]
      · rcases hup : (upload_para_drive cfg dw f).1 with _ | link
        · simp only [hft, attachment_link, if_neg hf, hup, Option.map_none']
          rw [links_of_append cfg dw atts acc]
        · simp only [hft, attachment_link, if_neg hf, hup, Option.map_some']
          rw [links_of_append cfg dw atts (acc ++ ["Foto: " ++ link])]
          simp

/-- The collected photo links are exactly the `filterMap` of the
per-attachment outcome over the payload's attachment list: order-preserving,
failure-skipping, duplicate-keeping. -/
theorem links_of_eq_filterMap (cfg : AppConfig) (dw : DriveWorld)
    (atts : List Attachment) :
    links_of cfg dw atts = atts.filterMap (attachment_link cfg dw) := by
  unfold links_of
  rw [links_of_append]
  simp

/-- C2: the photo-link lines are the in-order `filterMap` of the attachment
list (failed attachments — download error, upload error, or missing filename
— are skipped, order is preserved, duplicates are kept), and the record is
created with whatever links were produced, including none. -/
theorem c2_attachments_order_and_tolerance (cfg : AppConfig) (w : NotionWorld)
    (dw : DriveWorld) (dados : Payload) (oid pid : String)
    (htok : dados.token = none)
    (hobra : dados.obra ≠ "")
    (hfind : obter_obra_id cfg w dados.obra = some oid)
    (hcreate : w.create_page
      (montar_propriedades (gerar_titulo cfg w dados.obra oid) oid dados
        (obter_usuario_por_login cfg w dados.submitted_by).1
        (links_of cfg dw dados.attachments)) = .ok pid) :
    links_of cfg dw dados.attachments
      = dados.attachments.filterMap (attachment_link cfg dw) ∧
    receber_dados cfg none (.payload dados) w dw
      = (.ok pid,
         (obter_usuario_por_login cfg w dados.submitted_by).2
           ++ [.createRecord
                (montar_propriedades (gerar_titulo cfg w dados.obra oid) oid dados
                  (obter_usuario_por_login cfg w dados.submitted_by).1
                  (links_of cfg dw dados.attachments))]) := by
  refine ⟨links_of_eq_filterMap cfg dw dados.attachments, ?_⟩
  have hv : invalid_token cfg (extract_token none dados) = false := by
    rw [show extract_token none dados = dados.token from rfl, htok]; rfl
  simp only [receber_dados, get_json, hv, Bool.false_eq_true, if_false,
    if_neg hobra, hfind, hcreate]

/-- A Notion backend that resolves the work site `"Obra X"` to `"obra-1"`,
finds no existing user (creating `"user-1"`), and creates pages as
`"page-1"`. -/
def w2 : NotionWorld :=
  ⟨fun db _ => if db = "db_obra" then .ok (200, ["obra-1"]) else .ok (200, []),
   fun _ => .ok "user-1",
   fun _ => .ok "page-1"⟩

/-- A Kobo/Drive backend where downloading `"b.jpg"` fails and every other
download and upload succeeds (file id `"id1"`). -/
def dw2 : DriveWorld :=
  ⟨fun url _ => if url = download_target "b.jpg" then .error "download failed"
                else .ok (200, "bytes"),
   fun _ _ => .ok "id1"⟩

/-- A payload with three attachments `a.jpg`, `b.jpg`, `a.jpg` (a repeated
filename, and a middle one whose download fails). -/
def dados2 : Payload :=
  ⟨none, "Obra X", "joao", "loc", "note", "ok", "2024-01-01", "uuid-1",
   [⟨some "a.jpg", none⟩, ⟨some "b.jpg", none⟩, ⟨some "a.jpg", none⟩]⟩

/-- Witness for C2: of the three attachments the failing middle one is
skipped; the two successful (duplicate) lines appear in order and the record
is created. -/
theorem c2_attachments_order_and_tolerance_witness :
    (dados2.token = none ∧ dados2.obra ≠ "" ∧
      obter_obra_id cfg1 w2 dados2.obra = some "obra-1" ∧
      w2.create_page
        (montar_propriedades (gerar_titulo cfg1 w2 dados2.obra "obra-1") "obra-1"
          dados2 (obter_usuario_por_login cfg1 w2 dados2.submitted_by).1
          (links_of cfg1 dw2 dados2.attachments)) = .ok "page-1" ∧
      links_of cfg1 dw2 dados2.attachments
        = ["Foto: https://drive.google.com/file/d/id1/view",
           "Foto: https://drive.google.com/file/d/id1/view"]) ∧
    (links_of cfg1 dw2 dados2.attachments
        = dados2.attachments.filterMap (attachment_link cfg1 dw2) ∧
      receber_dados cfg1 none (.payload dados2) w2 dw2
        = (.ok "page-1",
           (obter_usuario_por_login cfg1 w2 dados2.submitted_by).2
             ++ [.createRecord
                  (montar_propriedades (gerar_titulo cfg1 w2 dados2.obra "obra-1")
                    "obra-1" dados2
                    (obter_usuario_por_login cfg1 w2 dados2.submitted_by).1
                    (links_of cfg1 dw2 dados2.attachments))])) :=
  ⟨⟨by decide, by decide, by decide, rfl, by decide⟩,
   c2_attachments_order_and_tolerance cfg1 w2 dw2 dados2 "obra-1" "page-1"
     (by decide) (by decide) (by decide) rfl⟩

/-! ## C4: work-site hard stop vs submitter auto-create -/

/-- C4: a payload whose work-site name has no exact-title match is answered
with 400 ("Obra não encontrada") and nothing is created; the work site is
not auto-created (`obter_obra_id` only looks up), while a submitter with no
match is created on first sight. -/
theorem c4_worksite_hard_stop (cfg : AppConfig) (w : NotionWorld)
    (dw : DriveWorld) (dados : Payload) (login uid : String)
    (htok : dados.token = none) (hobra : dados.obra ≠ "")
    (hmiss : query_notion_database w cfg.notion_db_obras
      (.titleEquals dados.obra) = .ok [])
    (hul : query_notion_database w cfg.notion_db_usuarios
      (.titleEquals login) = .ok [])
    (huc : w.create_user login = .ok uid) :
    obter_obra_id cfg w dados.obra = none ∧
    receber_dados cfg none (.payload dados) w dw = (.errObraNaoEncontrada, []) ∧
    Resp.status .errObraNaoEncontrada = 400 ∧
    obter_usuario_por_login cfg w login = (some uid, [.createUser login]) := by
  have hob : obter_obra_id cfg w dados.obra = none := by
    unfold obter_obra_id; rw [hmiss]
  have hv : invalid_token cfg (extract_token none dados) = false := by
    rw [show extract_token none dados = dados.token from rfl, htok]; rfl
  refine ⟨hob, ?_, rfl, ?_⟩
  · simp only [receber_dados, get_json, hv, Bool.false_eq_true, if_false,
      if_neg hobra, hob]
  · unfold obter_usuario_por_login
    rw [hul, huc]

/-- A Notion backend answering every query with 200 and no results, and
creating users as `"user-9"`. -/
def w4 : NotionWorld :=
  ⟨fun _ _ => .ok (200, []), fun _ => .ok "user-9", fun _ => .error "unreachable"⟩

/-- A payload naming an unknown work site. -/
def dados4 : Payload := ⟨none, "Obra Y", "maria", "", "", "", "", "", []⟩

/-- Witness for C4 at a backend with no matching work site: 400, nothing
created, and (by contrast) a first-seen submitter login is created. -/
theorem c4_worksite_hard_stop_witness :
    (dados4.token = none ∧ dados4.obra ≠ "" ∧
      query_notion_database w4 cfg1.notion_db_obras
        (.titleEquals dados4.obra) = .ok [] ∧
      query_notion_database w4 cfg1.notion_db_usuarios
        (.titleEquals "maria") = .ok [] ∧
      w4.create_user "maria" = .ok "user-9") ∧
    (obter_obra_id cfg1 w4 dados4.obra = none ∧
      receber_dados cfg1 none (.payload dados4) w4 dwErr
        = (.errObraNaoEncontrada, []) ∧
      Resp.status .errObraNaoEncontrada = 400 ∧
      obter_usuario_por_login cfg1 w4 "maria"
        = (some "user-9", [.createUser "maria"])) :=
  ⟨⟨by decide, by decide, rfl, rfl, rfl⟩,
   c4_worksite_hard_stop cfg1 w4 dwErr dados4 "maria" "user-9"
     (by decide) (by decide) rfl rfl rfl⟩
